import Mathlib

/-!
# Verification of the go-ini parser state machine

A shallow embedding of the pull-based parser state machine of the go-ini
repository (`parserc.go`, plus the data declarations of the companion
source file).  Go byte slices are modelled as `List Nat` (byte values),
machine integers as `Nat`, and the mutable `ini_parser_t` structure as an
explicit state record that every step function threads through.

Identifiers referenced by `parserc.go` but not declared in the provided
sources (the token kinds `ini_SECTION_KEY_TOKEN`, `ini_SECTION_VALUE_TOKEN`,
`ini_SCALAR_TOKEN`, the event kind `ini_SECTION_ENTRY_EVENT`, the parser
states `ini_PARSE_SECTION_FIRST_KEY_STATE` / `ini_PARSE_SECTION_KEY_STATE` /
`ini_PARSE_SECTION_VALUE_STATE`, the event `tag` field, the tag string
constants, the scalar classifier `analyzeTag`, and the scanner entry point
`ini_parser_fetch_more_tokens`) are added here, modelled from the design
document where their behaviour matters.
-/

namespace GoIni

/-- Source position: `ini_mark_t` with `index`, `line`, `column`. -/
structure ini_mark_t where
  index : Nat
  line : Nat
  column : Nat
deriving DecidableEq, Repr

/-- The zero value of `ini_mark_t`. -/
def ini_mark_zero : ini_mark_t := { index := 0, line := 0, column := 0 }

/-- Error kinds: `ini_error_type_t`. -/
inductive ini_error_type_t where
  | ini_NO_ERROR
  | ini_MEMORY_ERROR
  | ini_READER_ERROR
  | ini_SCANNER_ERROR
  | ini_PARSER_ERROR
  | ini_COMPOSER_ERROR
  | ini_WRITER_ERROR
  | ini_EMITTER_ERROR
deriving DecidableEq, Repr

/-- Token kinds: `ini_token_type_t`.  The constructors after
`ini_COMMENT_END_TOKEN` are the kinds used by `parserc.go` that are missing
from the declarations in the provided sources. -/
inductive ini_token_type_t where
  | ini_NO_TOKEN
  | ini_STREAM_START_TOKEN
  | ini_STREAM_END_TOKEN
  | ini_DOCUMENT_START_TOKEN
  | ini_DOCUMENT_END_TOKEN
  | ini_SECTION_START_TOKEN
  | ini_SECTION_END_TOKEN
  | ini_SECTION_INHERIT_TOKEN
  | ini_KEY_TOKEN
  | ini_VALUE_TOKEN
  | ini_COMMENT_START_TOKEN
  | ini_COMMENT_END_TOKEN
  | ini_SECTION_KEY_TOKEN
  | ini_SECTION_VALUE_TOKEN
  | ini_SCALAR_TOKEN
deriving DecidableEq, Repr

/-- Event kinds: `ini_event_type_t`, plus `ini_SECTION_ENTRY_EVENT`, which
`parserc.go` uses but the provided declarations miss. -/
inductive ini_event_type_t where
  | ini_NO_EVENT
  | ini_STREAM_START_EVENT
  | ini_STREAM_END_EVENT
  | ini_DOCUMENT_START_EVENT
  | ini_DOCUMENT_END_EVENT
  | ini_SECTION_START_EVENT
  | ini_SECTION_INHERIT_EVENT
  | ini_SECTION_END_EVENT
  | ini_SCALAR_EVENT
  | ini_KEY_EVENT
  | ini_VALUE_EVENT
  | ini_COMMENT_EVENT
  | ini_SECTION_ENTRY_EVENT
deriving DecidableEq, Repr

/-- Modelled from the spec: the semantic tag attached to events.  The tag
string constants (`ini_SECTION_TAG`, `ini_SECTION_INHERIT_TAG`,
`ini_NULL_TAG`) and the classifier result tags are byte strings in the
repository, declared in a file absent from this slice; the design document
treats them as distinct semantic labels, which is how they are modelled
here.  `ini_NO_TAG` stands for the nil byte slice of the zero event. -/
inductive ini_tag_t where
  | ini_NO_TAG
  | ini_SECTION_TAG
  | ini_SECTION_INHERIT_TAG
  | ini_NULL_TAG
  | ini_STR_TAG
  | ini_INT_TAG
  | ini_FLOAT_TAG
  | ini_BOOL_TAG
deriving DecidableEq, Repr

/-- Scalar styles (`ini_scalar_style_t`), modelled as `Nat`, in declaration
order. -/
def ini_ANY_SCALAR_STYLE : Nat := 0

/-- The plain scalar style. -/
def ini_PLAIN_SCALAR_STYLE : Nat := 1

/-- The literal scalar style. -/
def ini_LITERAL_SCALAR_STYLE : Nat := 2

/-- The single-quoted scalar style. -/
def ini_SINGLE_QUOTED_SCALAR_STYLE : Nat := 3

/-- The double-quoted scalar style. -/
def ini_DOUBLE_QUOTED_SCALAR_STYLE : Nat := 4

/-- Token structure: `ini_token_t`.  `value` is the raw byte slice. -/
structure ini_token_t where
  typ : ini_token_type_t
  start_mark : ini_mark_t
  end_mark : ini_mark_t
  value : List Nat
  style : Nat
deriving DecidableEq, Repr

/-- Event structure: `ini_event_t`.  The `tag` field is used by
`parserc.go` (`tag: []byte(...)`) although the struct declaration in the
provided sources omits it. -/
structure ini_event_t where
  typ : ini_event_type_t
  start_mark : ini_mark_t
  end_mark : ini_mark_t
  value : List Nat
  tag : ini_tag_t
  implicit : Bool
  style : Nat
deriving DecidableEq, Repr

/-- The Go zero value `ini_event_t{}` used to erase the event object. -/
def ini_empty_event : ini_event_t :=
  { typ := .ini_NO_EVENT
    start_mark := ini_mark_zero
    end_mark := ini_mark_zero
    value := []
    tag := .ini_NO_TAG
    implicit := false
    style := 0 }

/-- Parser states: `ini_parser_state_t`, in declaration order, plus the
three section key/value states used by `parserc.go` that are missing from
the declarations in the provided sources. -/
inductive ini_parser_state_t where
  | ini_PARSE_STREAM_START_STATE
  | ini_PARSE_DOCUMENT_START_STATE
  | ini_PARSE_DOCUMENT_END_STATE
  | ini_PARSE_DOCUMENT_CONTENT_STATE
  | ini_PARSE_SECTION_FIRST_ENTRY_STATE
  | ini_PARSE_SECTION_ENTRY_STATE
  | ini_PARSE_COMMENT_START_STATE
  | ini_PARSE_COMMENT_CONTENT_STATE
  | ini_PARSE_COMMENT_END_STATE
  | ini_PARSE_KEY_STATE
  | ini_PARSE_VALUE_STATE
  | ini_PARSE_STREAM_END_STATE
  | ini_PARSE_SECTION_FIRST_KEY_STATE
  | ini_PARSE_SECTION_KEY_STATE
  | ini_PARSE_SECTION_VALUE_STATE
deriving DecidableEq, Repr

/-- The parser structure `ini_parser_t`, restricted to the fields that the
parser core (`parserc.go`) reads or writes.  The reader/scanner internals
(buffers, input handles, offsets) belong to the out-of-scope tokenizer and
are not modelled; the token queue `tokens` holds the token sequence the
tokenizer delivers.  `document_end_produced` is used by `parserc.go`
although the struct declaration in the provided sources omits it. -/
structure ini_parser_t where
  error : ini_error_type_t
  problem : String
  problem_mark : ini_mark_t
  context : String
  context_mark : ini_mark_t
  tokens : List ini_token_t
  tokens_head : Nat
  tokens_parsed : Nat
  token_available : Bool
  document_end_produced : Bool
  state : ini_parser_state_t
  states : List ini_parser_state_t
deriving DecidableEq, Repr

/-- Modelled from the spec: `ini_parser_fetch_more_tokens` (the scanner
entry point, absent from this slice).  Per the design document the
tokenizer always terminates the token sequence with an explicit
document-end token and `peek` "returns none only when the tokenizer
reports a failure (an error the tokenizer itself must have already
recorded)".  So fetching succeeds exactly when another token of the
delivered sequence remains, and a failed fetch leaves a recorded scanner
error behind. -/
def ini_parser_fetch_more_tokens (p : ini_parser_t) : Bool × ini_parser_t :=
  match p.tokens[p.tokens_head]? with
  | some _ => (true, { p with token_available := true })
  | none => (false, { p with error := .ini_SCANNER_ERROR })

/-- `peek_token`: return the next token of the queue without removing it,
fetching from the tokenizer when no token is available. -/
def peek_token (p : ini_parser_t) : Option ini_token_t × ini_parser_t :=
  if p.token_available then (p.tokens[p.tokens_head]?, p)
  else
    match ini_parser_fetch_more_tokens p with
    | (true, p1) => (p1.tokens[p1.tokens_head]?, p1)
    | (false, p1) => (none, p1)

/-- `skip_token`: remove the next token from the queue (called only after
a successful `peek_token`, so the indexed token exists there; the `none`
branch is unreachable in those calls). -/
def skip_token (p : ini_parser_t) : ini_parser_t :=
  { p with
    token_available := false
    tokens_parsed := p.tokens_parsed + 1
    document_end_produced :=
      match p.tokens[p.tokens_head]? with
      | some t => decide (t.typ = .ini_DOCUMENT_END_TOKEN)
      | none => false
    tokens_head := p.tokens_head + 1 }

/-- `ini_parser_set_parser_error`: record a parser error and return false.
The Go function leaves the event object alone; since the driver erased it,
the returned event is the erased one. -/
def ini_parser_set_parser_error (p : ini_parser_t) (problem : String)
    (problem_mark : ini_mark_t) : Bool × ini_event_t × ini_parser_t :=
  (false, ini_empty_event,
    { p with error := .ini_PARSER_ERROR, problem := problem,
             problem_mark := problem_mark })

/-- `ini_parser_parse_document_start`. -/
def ini_parser_parse_document_start (p : ini_parser_t) :
    Bool × ini_event_t × ini_parser_t :=
  match peek_token p with
  | (none, p1) => (false, ini_empty_event, p1)
  | (some token, p1) =>
    let p2 := skip_token p1
    if token.typ ≠ .ini_DOCUMENT_START_TOKEN then
      ini_parser_set_parser_error p2 "did not find expected <document-start>"
        token.start_mark
    else
      let p3 := { p2 with
        states := p2.states ++ [.ini_PARSE_DOCUMENT_END_STATE]
        state := .ini_PARSE_SECTION_FIRST_ENTRY_STATE }
      (true,
        { ini_empty_event with
          typ := .ini_DOCUMENT_START_EVENT
          start_mark := token.start_mark
          end_mark := token.end_mark }, p3)

/-- `ini_parser_parse_section_entry`.  `analyzeTag` is the scalar
classifier, an external collaborator passed explicitly; `first` mirrors
the Go boolean.  The document-end branch performs no `skip_token`: the Go
code pops the states stack (`parser.states[len(parser.states)-1]`, a
run-time panic on an empty stack, modelled by `getLastD` — the stack is
never empty when this state is reachable) and emits without consuming. -/
def ini_parser_parse_section_entry (analyzeTag : List Nat → ini_tag_t)
    (p : ini_parser_t) (first : Bool) : Bool × ini_event_t × ini_parser_t :=
  match peek_token p with
  | (none, p1) => (false, ini_empty_event, p1)
  | (some token, p1) =>
    if token.typ = .ini_DOCUMENT_END_TOKEN then
      let p2 := { p1 with
        state := p1.states.getLastD .ini_PARSE_STREAM_START_STATE
        states := p1.states.dropLast }
      (true,
        { ini_empty_event with
          typ := .ini_DOCUMENT_END_EVENT
          start_mark := token.start_mark
          end_mark := token.end_mark }, p2)
    else if first = true ∧ token.typ = .ini_SECTION_KEY_TOKEN then
      let p2 := { p1 with state := .ini_PARSE_SECTION_FIRST_KEY_STATE }
      (true,
        { ini_empty_event with
          typ := .ini_SECTION_ENTRY_EVENT
          start_mark := token.start_mark
          end_mark := token.start_mark
          value := [100, 101, 102, 97, 117, 108, 116]
          tag := .ini_SECTION_TAG }, p2)
    else if token.typ = .ini_SECTION_START_TOKEN then
      let start_mark := token.start_mark
      let p2 := skip_token p1
      match peek_token p2 with
      | (none, p3) => (false, ini_empty_event, p3)
      | (some token2, p3) =>
        let p4 := skip_token p3
        if token2.typ = .ini_SCALAR_TOKEN then
          let section_name := token2.value
          match peek_token p4 with
          | (none, p5) => (false, ini_empty_event, p5)
          | (some token3, p5) =>
            let end_mark := token3.end_mark
            if token3.typ = .ini_SECTION_INHERIT_TOKEN then
              let p6 := skip_token p5
              let section_name2 := section_name ++ token3.value
              match peek_token p6 with
              | (none, p7) => (false, ini_empty_event, p7)
              | (some token4, p7) =>
                let p8 := skip_token p7
                let section_name3 := section_name2 ++ token4.value
                let end_mark2 := token4.end_mark
                if token4.typ = .ini_SCALAR_TOKEN then
                  let p9 := { p8 with
                    state := .ini_PARSE_SECTION_FIRST_KEY_STATE }
                  match peek_token p9 with
                  | (none, p10) => (false, ini_empty_event, p10)
                  | (some token5, p10) =>
                    if token5.typ = .ini_SECTION_END_TOKEN then
                      let p11 := { skip_token p10 with
                        state := .ini_PARSE_SECTION_FIRST_KEY_STATE }
                      (true,
                        { typ := .ini_SECTION_ENTRY_EVENT
                          start_mark := start_mark
                          end_mark := end_mark2
                          value := section_name3
                          tag := .ini_SECTION_INHERIT_TAG
                          implicit := false
                          style := token5.style }, p11)
                    else
                      ini_parser_set_parser_error p10
                        "did not find expected <section-end>"
                        token5.start_mark
                else
                  ini_parser_set_parser_error p8
                    "did not find expected <scalar>" token4.start_mark
            else
              if token3.typ = .ini_SECTION_END_TOKEN then
                let p6 := { skip_token p5 with
                  state := .ini_PARSE_SECTION_FIRST_KEY_STATE }
                (true,
                  { typ := .ini_SECTION_ENTRY_EVENT
                    start_mark := start_mark
                    end_mark := end_mark
                    value := section_name
                    tag := .ini_SECTION_TAG
                    implicit := false
                    style := token3.style }, p6)
              else
                ini_parser_set_parser_error p5
                  "did not find expected <section-end>" token3.start_mark
        else
          ini_parser_set_parser_error p4 "did not find expected <scalar>"
            token2.start_mark
    else if token.typ = .ini_SECTION_END_TOKEN then
      let p2 := skip_token p1
      match peek_token p2 with
      | (none, p3) => (false, ini_empty_event, p3)
      | (some token2, p3) =>
        let p4 := skip_token p3
        if token2.typ = .ini_SECTION_KEY_TOKEN then
          let start_mark := token2.start_mark
          match peek_token p4 with
          | (none, p5) => (false, ini_empty_event, p5)
          | (some token3, p5) =>
            let end_mark := token3.end_mark
            let p6 := { skip_token p5 with
              state := .ini_PARSE_SECTION_VALUE_STATE }
            (true,
              { typ := .ini_SCALAR_EVENT
                start_mark := start_mark
                end_mark := end_mark
                value := token3.value
                tag := analyzeTag token3.value
                implicit := false
                style := 0 }, p6)
        else
          ini_parser_set_parser_error p4
            "did not find expected <section-key>" token2.start_mark
    else
      ini_parser_set_parser_error p1
        "did not find expected <section-start> or <section-key>"
        token.start_mark

/-- `ini_parser_parse_section_key`.  The `first` parameter is accepted but
never used by the Go function. -/
def ini_parser_parse_section_key (analyzeTag : List Nat → ini_tag_t)
    (p : ini_parser_t) (first : Bool) : Bool × ini_event_t × ini_parser_t :=
  match peek_token p with
  | (none, p1) => (false, ini_empty_event, p1)
  | (some token, p1) =>
    if token.typ = .ini_SECTION_KEY_TOKEN then
      let p2 := skip_token p1
      let start_mark := token.start_mark
      match peek_token p2 with
      | (none, p3) => (false, ini_empty_event, p3)
      | (some token2, p3) =>
        let end_mark := token2.end_mark
        if token2.typ = .ini_SCALAR_TOKEN then
          let p4 := { skip_token p3 with
            state := .ini_PARSE_SECTION_VALUE_STATE }
          (true,
            { typ := .ini_SCALAR_EVENT
              start_mark := start_mark
              end_mark := end_mark
              value := token2.value
              tag := analyzeTag token2.value
              implicit := false
              style := token2.style }, p4)
        else
          ini_parser_set_parser_error p3 "did not find expected <scalar>"
            token2.start_mark
    else
      let p2 := { p1 with state := .ini_PARSE_SECTION_ENTRY_STATE }
      (true,
        { ini_empty_event with
          typ := .ini_SECTION_ENTRY_EVENT
          start_mark := token.start_mark
          end_mark := token.end_mark }, p2)

/-- `ini_parser_process_empty_scalar`. -/
def ini_parser_process_empty_scalar (p : ini_parser_t) (mark : ini_mark_t) :
    Bool × ini_event_t × ini_parser_t :=
  (true,
    { typ := .ini_SCALAR_EVENT
      start_mark := mark
      end_mark := mark
      value := []
      tag := .ini_NULL_TAG
      implicit := false
      style := ini_PLAIN_SCALAR_STYLE }, p)

/-- `ini_parser_parse_section_value`. -/
def ini_parser_parse_section_value (analyzeTag : List Nat → ini_tag_t)
    (p : ini_parser_t) : Bool × ini_event_t × ini_parser_t :=
  match peek_token p with
  | (none, p1) => (false, ini_empty_event, p1)
  | (some token, p1) =>
    if token.typ = .ini_SECTION_VALUE_TOKEN then
      let p2 := skip_token p1
      let start_mark := token.start_mark
      match peek_token p2 with
      | (none, p3) => (false, ini_empty_event, p3)
      | (some token2, p3) =>
        let end_mark := token2.end_mark
        if token2.typ = .ini_SCALAR_TOKEN then
          let p4 := { skip_token p3 with
            state := .ini_PARSE_SECTION_KEY_STATE }
          (true,
            { typ := .ini_SCALAR_EVENT
              start_mark := start_mark
              end_mark := end_mark
              value := token2.value
              tag := analyzeTag token2.value
              implicit := false
              style := token2.style }, p4)
        else
          let p4 := { p3 with state := .ini_PARSE_SECTION_KEY_STATE }
          ini_parser_process_empty_scalar p4 token2.start_mark
    else
      ini_parser_set_parser_error p1 "did not find expected <section-value>"
        token.start_mark

/-- `ini_parser_state_machine`: the state dispatcher.  Go panics
(`panic("invalid parser state")`) on the states of the default branch;
they are unreachable from the initial state, and the model returns a
failure leaving the parser unchanged there. -/
def ini_parser_state_machine (analyzeTag : List Nat → ini_tag_t)
    (p : ini_parser_t) : Bool × ini_event_t × ini_parser_t :=
  match p.state with
  | .ini_PARSE_DOCUMENT_START_STATE => ini_parser_parse_document_start p
  | .ini_PARSE_SECTION_FIRST_ENTRY_STATE =>
      ini_parser_parse_section_entry analyzeTag p true
  | .ini_PARSE_SECTION_ENTRY_STATE =>
      ini_parser_parse_section_entry analyzeTag p false
  | .ini_PARSE_SECTION_FIRST_KEY_STATE =>
      ini_parser_parse_section_key analyzeTag p true
  | .ini_PARSE_SECTION_KEY_STATE =>
      ini_parser_parse_section_key analyzeTag p false
  | .ini_PARSE_SECTION_VALUE_STATE =>
      ini_parser_parse_section_value analyzeTag p
  | _ => (false, ini_empty_event, p)

/-- `ini_parser_parse`: the public driver.  The event object is erased
first; once the document end was produced, an error was recorded, or the
terminal state was reached, the call returns success with the erased
event. -/
def ini_parser_parse (analyzeTag : List Nat → ini_tag_t)
    (p : ini_parser_t) : Bool × ini_event_t × ini_parser_t :=
  if p.document_end_produced = true ∨ p.error ≠ .ini_NO_ERROR ∨
      p.state = .ini_PARSE_DOCUMENT_END_STATE then
    (true, ini_empty_event, p)
  else
    ini_parser_state_machine analyzeTag p

/-- Modelled from the spec: a freshly initialised parser over a delivered
token sequence (the initialisation function is absent from this slice).
All counters and flags start at their zero values and the state machine
starts in its initial state Document-Start. -/
def ini_parser_initial (ts : List ini_token_t) : ini_parser_t :=
  { error := .ini_NO_ERROR
    problem := ""
    problem_mark := ini_mark_zero
    context := ""
    context_mark := ini_mark_zero
    tokens := ts
    tokens_head := 0
    tokens_parsed := 0
    token_available := false
    document_end_produced := false
    state := .ini_PARSE_DOCUMENT_START_STATE
    states := [] }

/-- Iterated driver calls: the parser state after `n` further calls to
`ini_parser_parse`. -/
def ini_parser_parse_iter (analyzeTag : List Nat → ini_tag_t)
    (p : ini_parser_t) : Nat → ini_parser_t
  | 0 => p
  | n + 1 => (ini_parser_parse analyzeTag
      (ini_parser_parse_iter analyzeTag p n)).2.2

/-- Queue invariant: when a token is flagged available, the head index is
in range.  Every reachable execution maintains it, since only a successful
peek sets the flag and a skip clears it while advancing the head. -/
def ini_parser_token_inv (p : ini_parser_t) : Prop :=
  p.token_available = true → p.tokens_head < p.tokens.length

/-- The states the dispatcher handles; on all other states Go panics
("invalid parser state"), and they are unreachable from the initial
state. -/
def ini_parser_state_handled (s : ini_parser_state_t) : Prop :=
  s = .ini_PARSE_DOCUMENT_START_STATE ∨
  s = .ini_PARSE_SECTION_FIRST_ENTRY_STATE ∨
  s = .ini_PARSE_SECTION_ENTRY_STATE ∨
  s = .ini_PARSE_SECTION_FIRST_KEY_STATE ∨
  s = .ini_PARSE_SECTION_KEY_STATE ∨
  s = .ini_PARSE_SECTION_VALUE_STATE

/-- A token builder for concrete instances: marks at byte `a`..`b` of
line 0, with the given raw value and plain style. -/
def ini_mk_token (t : ini_token_type_t) (a b : Nat) (v : List Nat) :
    ini_token_t :=
  { typ := t
    start_mark := { index := a, line := 0, column := a }
    end_mark := { index := b, line := 0, column := b }
    value := v
    style := 0 }

/-- A concrete scalar classifier for closed instances: everything is a
string. -/
def ini_str_classifier : List Nat → ini_tag_t := fun _ => .ini_STR_TAG

/-- A parser that already reached the exhaustion latch (document end
produced). -/
def claim_C1_input_latched : ini_parser_t :=
  { ini_parser_initial [] with document_end_produced := true }

/-- A parser whose first call fails: the first token is not the
document-start token. -/
def claim_C1_input_failing : ini_parser_t :=
  ini_parser_initial [ini_mk_token .ini_SCALAR_TOKEN 0 1 [120]]

/-- A parser in the Section-Entry state looking at the document-end
token. -/
def claim_C2_input : ini_parser_t :=
  { ini_parser_initial [ini_mk_token .ini_DOCUMENT_END_TOKEN 4 4 []] with
    state := .ini_PARSE_SECTION_ENTRY_STATE
    states := [.ini_PARSE_DOCUMENT_END_STATE] }

/-- A parser in the Section-First-Entry state looking at a section-key
token. -/
def claim_C3_input : ini_parser_t :=
  { ini_parser_initial [ini_mk_token .ini_SECTION_KEY_TOKEN 2 3 [107]] with
    state := .ini_PARSE_SECTION_FIRST_ENTRY_STATE }

/-- A parser about to read the header `[child:parent]`. -/
def claim_C4_input : ini_parser_t :=
  { ini_parser_initial
      [ini_mk_token .ini_SECTION_START_TOKEN 0 1 [],
       ini_mk_token .ini_SCALAR_TOKEN 1 6 [99, 104, 105, 108, 100],
       ini_mk_token .ini_SECTION_INHERIT_TOKEN 6 7 [58],
       ini_mk_token .ini_SCALAR_TOKEN 7 13 [112, 97, 114, 101, 110, 116],
       ini_mk_token .ini_SECTION_END_TOKEN 13 14 []] with
    state := .ini_PARSE_SECTION_FIRST_ENTRY_STATE }

/-- A parser in the Section-Key state whose lookahead is a one-byte-wide
section-start token (start mark ≠ end mark). -/
def claim_C5_input : ini_parser_t :=
  { ini_parser_initial [ini_mk_token .ini_SECTION_START_TOKEN 5 6 []] with
    state := .ini_PARSE_SECTION_KEY_STATE }

/-- A parser in the Section-Entry state looking at a section-end token
followed by a section-key token (bytes `k1`) and a scalar token with
different bytes (`v9`). -/
def claim_C6_input : ini_parser_t :=
  { ini_parser_initial
      [ini_mk_token .ini_SECTION_END_TOKEN 0 1 [],
       ini_mk_token .ini_SECTION_KEY_TOKEN 2 3 [107, 49],
       ini_mk_token .ini_SCALAR_TOKEN 4 5 [118, 57]] with
    state := .ini_PARSE_SECTION_ENTRY_STATE }

/-- A parser in the Section-Value state looking at a value-marker token
followed by a non-scalar token. -/
def claim_C7_input : ini_parser_t :=
  { ini_parser_initial
      [ini_mk_token .ini_SECTION_VALUE_TOKEN 3 4 [61],
       ini_mk_token .ini_SECTION_KEY_TOKEN 5 5 []] with
    state := .ini_PARSE_SECTION_VALUE_STATE }

/-- A parser in the Section-First-Key state whose lookahead is not a
section-key token (an empty section followed by document end). -/
def claim_C10_input : ini_parser_t :=
  { ini_parser_initial [ini_mk_token .ini_DOCUMENT_END_TOKEN 3 3 []] with
    state := .ini_PARSE_SECTION_FIRST_KEY_STATE }

/-! ## Helper lemmas -/

/-- The latch at the top of the driver: once the document end was
produced, an error was recorded, or the terminal state was reached, the
call returns success with the erased event and leaves the parser
untouched. -/
theorem ini_parser_parse_latched (f : List Nat → ini_tag_t)
    (p : ini_parser_t)
    (h : p.document_end_produced = true ∨ p.error ≠ .ini_NO_ERROR ∨
      p.state = .ini_PARSE_DOCUMENT_END_STATE) :
    ini_parser_parse f p = (true, ini_empty_event, p) := by
  unfold ini_parser_parse
  rw [if_pos h]

/-- A latched parser is a fixed point of the iterated driver. -/
theorem ini_parser_parse_iter_latched (f : List Nat → ini_tag_t)
    (p : ini_parser_t)
    (h : p.document_end_produced = true ∨ p.error ≠ .ini_NO_ERROR ∨
      p.state = .ini_PARSE_DOCUMENT_END_STATE) :
    ∀ n, ini_parser_parse_iter f p n = p := by
  intro n
  induction n with
  | zero => rfl
  | succ n ih =>
    unfold ini_parser_parse_iter
    rw [ih, ini_parser_parse_latched f p h]

/-- Peeking never touches the document-end-produced flag. -/
theorem peek_token_document_end_produced (p : ini_parser_t) :
    ((peek_token p).2).document_end_produced = p.document_end_produced := by
  unfold peek_token ini_parser_fetch_more_tokens
  rcases hav : p.token_available with _ | _ <;>
    rcases hg : p.tokens[p.tokens_head]? with _ | t <;>
    simp [hav, hg]

/-- The non-consuming boundary transition of the section-key step: a
lookahead that is not a section-key token is left in place and a boundary
Section-Entry event carrying the token's own marks is emitted. -/
theorem ini_parser_section_key_boundary (f : List Nat → ini_tag_t)
    (p : ini_parser_t) (t : ini_token_t)
    (h : p.tokens[p.tokens_head]? = some t)
    (ht : t.typ ≠ .ini_SECTION_KEY_TOKEN) :
    ini_parser_parse_section_key f p false =
      (true,
        { ini_empty_event with
          typ := .ini_SECTION_ENTRY_EVENT
          start_mark := t.start_mark
          end_mark := t.end_mark },
        { p with state := .ini_PARSE_SECTION_ENTRY_STATE,
                 token_available := true }) := by
  unfold ini_parser_parse_section_key peek_token ini_parser_fetch_more_tokens
  rcases hav : p.token_available with _ | _ <;>
    simp [hav, h, ht, ini_empty_event]

/-- A failing document-start step leaves a recorded error behind. -/
theorem ds_false (p : ini_parser_t) (hinv : ini_parser_token_inv p) :
    (ini_parser_parse_document_start p).1 = false →
    (ini_parser_parse_document_start p).2.2.error ≠ .ini_NO_ERROR := by
  intro hfalse
  unfold ini_parser_parse_document_start peek_token
    ini_parser_fetch_more_tokens ini_parser_set_parser_error
    at hfalse ⊢
  rcases hav : p.token_available with _ | _ <;>
    rcases h0 : p.tokens[p.tokens_head]? with _ | t1
  · simp [hav, h0]
  · simp [hav, h0] at hfalse ⊢
    by_cases ht : t1.typ = .ini_DOCUMENT_START_TOKEN <;>
      simp [ht] at hfalse ⊢
  · exact absurd h0 (by rw [List.getElem?_eq_getElem (hinv hav)]; simp)
  · simp [hav, h0] at hfalse ⊢
    by_cases ht : t1.typ = .ini_DOCUMENT_START_TOKEN <;>
      simp [ht] at hfalse ⊢

/-- A failing section-value step leaves a recorded error behind. -/
theorem sv_false (f : List Nat → ini_tag_t) (p : ini_parser_t)
    (hinv : ini_parser_token_inv p) :
    (ini_parser_parse_section_value f p).1 = false →
    (ini_parser_parse_section_value f p).2.2.error ≠ .ini_NO_ERROR := by
  intro hfalse
  unfold ini_parser_parse_section_value peek_token
    ini_parser_fetch_more_tokens skip_token ini_parser_set_parser_error
    ini_parser_process_empty_scalar at hfalse ⊢
  rcases hav : p.token_available with _ | _ <;>
    rcases h0 : p.tokens[p.tokens_head]? with _ | t1
  · simp [hav, h0]
  · simp [hav, h0] at hfalse ⊢
    by_cases ht : t1.typ = .ini_SECTION_VALUE_TOKEN
    · simp [ht] at hfalse ⊢
      rcases h1 : p.tokens[p.tokens_head + 1]? with _ | t2
      · simp [h1]
      · simp [h1] at hfalse ⊢
        by_cases ht2 : t2.typ = .ini_SCALAR_TOKEN <;>
          simp [ht2] at hfalse
    · simp [ht] at hfalse ⊢
  · exact absurd h0 (by rw [List.getElem?_eq_getElem (hinv hav)]; simp)
  · simp [hav, h0] at hfalse ⊢
    by_cases ht : t1.typ = .ini_SECTION_VALUE_TOKEN
    · simp [ht] at hfalse ⊢
      rcases h1 : p.tokens[p.tokens_head + 1]? with _ | t2
      · simp [h1]
      · simp [h1] at hfalse ⊢
        by_cases ht2 : t2.typ = .ini_SCALAR_TOKEN <;>
          simp [ht2] at hfalse
    · simp [ht] at hfalse ⊢

/-- A failing section-key step leaves a recorded error behind. -/
theorem sk_false (f : List Nat → ini_tag_t) (p : ini_parser_t)
    (first : Bool) (hinv : ini_parser_token_inv p) :
    (ini_parser_parse_section_key f p first).1 = false →
    (ini_parser_parse_section_key f p first).2.2.error ≠ .ini_NO_ERROR := by
  intro hfalse
  unfold ini_parser_parse_section_key peek_token
    ini_parser_fetch_more_tokens skip_token ini_parser_set_parser_error
    at hfalse ⊢
  rcases hav : p.token_available with _ | _ <;>
    rcases h0 : p.tokens[p.tokens_head]? with _ | t1
  · simp [hav, h0]
  · simp [hav, h0] at hfalse ⊢
    by_cases ht : t1.typ = .ini_SECTION_KEY_TOKEN
    · simp [ht] at hfalse ⊢
      rcases h1 : p.tokens[p.tokens_head + 1]? with _ | t2
      · simp [h1]
      · simp [h1] at hfalse ⊢
        by_cases ht2 : t2.typ = .ini_SCALAR_TOKEN <;>
          simp [ht2] at hfalse ⊢
    · simp [ht] at hfalse
  · exact absurd h0 (by rw [List.getElem?_eq_getElem (hinv hav)]; simp)
  · simp [hav, h0] at hfalse ⊢
    by_cases ht : t1.typ = .ini_SECTION_KEY_TOKEN
    · simp [ht] at hfalse ⊢
      rcases h1 : p.tokens[p.tokens_head + 1]? with _ | t2
      · simp [h1]
      · simp [h1] at hfalse ⊢
        by_cases ht2 : t2.typ = .ini_SCALAR_TOKEN <;>
          simp [ht2] at hfalse ⊢
    · simp [ht] at hfalse

/-- A failing section-entry step leaves a recorded error behind. -/
theorem se_false (f : List Nat → ini_tag_t) (p : ini_parser_t)
    (first : Bool) (hinv : ini_parser_token_inv p) :
    (ini_parser_parse_section_entry f p first).1 = false →
    (ini_parser_parse_section_entry f p first).2.2.error ≠
      .ini_NO_ERROR := by
  intro hfalse
  unfold ini_parser_parse_section_entry peek_token
    ini_parser_fetch_more_tokens skip_token ini_parser_set_parser_error
    at hfalse ⊢
  rcases hav : p.token_available with _ | _ <;>
    rcases h0 : p.tokens[p.tokens_head]? with _ | t1
  · simp [hav, h0]
  · simp [hav, h0] at hfalse ⊢
    by_cases hd : t1.typ = .ini_DOCUMENT_END_TOKEN
    · simp [hd] at hfalse
    · by_cases hk : first = true ∧ t1.typ = .ini_SECTION_KEY_TOKEN
      · simp [hd, hk] at hfalse
      · by_cases hs1 : t1.typ = .ini_SECTION_START_TOKEN
        · simp [hd, hk, hs1] at hfalse ⊢
          rcases h1 : p.tokens[p.tokens_head + 1]? with _ | t2
          · simp [h1] at hfalse ⊢
          · simp [h1] at hfalse ⊢
            by_cases hsc : t2.typ = .ini_SCALAR_TOKEN
            · simp [hsc] at hfalse ⊢
              rcases h2 : p.tokens[p.tokens_head + 2]? with _ | t3
              · simp [h2] at hfalse ⊢
              · simp [h2] at hfalse ⊢
                by_cases hin : t3.typ = .ini_SECTION_INHERIT_TOKEN
                · simp [hin] at hfalse ⊢
                  rcases h3 : p.tokens[p.tokens_head + 3]? with _ | t4
                  · simp [h3] at hfalse ⊢
                  · simp [h3] at hfalse ⊢
                    by_cases hs4 : t4.typ = .ini_SCALAR_TOKEN
                    · simp [hs4] at hfalse ⊢
                      rcases h4 : p.tokens[p.tokens_head + 4]? with _ | t5
                      · simp [h4] at hfalse ⊢
                      · simp [h4] at hfalse ⊢
                        by_cases he5 : t5.typ = .ini_SECTION_END_TOKEN
                        · simp [he5] at hfalse
                        · simp [he5] at hfalse ⊢
                    · simp [hs4] at hfalse ⊢
                · by_cases he3 : t3.typ = .ini_SECTION_END_TOKEN
                  · simp [hin, he3] at hfalse
                  · simp [hin, he3] at hfalse ⊢
            · simp [hsc] at hfalse ⊢
        · by_cases hs2 : t1.typ = .ini_SECTION_END_TOKEN
          · simp [hd, hk, hs1, hs2] at hfalse ⊢
            rcases h1 : p.tokens[p.tokens_head + 1]? with _ | t2
            · simp [h1] at hfalse ⊢
            · simp [h1] at hfalse ⊢
              by_cases hk2 : t2.typ = .ini_SECTION_KEY_TOKEN
              · simp [hk2] at hfalse ⊢
                rcases h2 : p.tokens[p.tokens_head + 2]? with _ | t3
                · simp [h2] at hfalse ⊢
                · simp [h2] at hfalse
              · simp [hk2] at hfalse ⊢
          · simp [hd, hk, hs1, hs2] at hfalse ⊢
  · exact absurd h0 (by rw [List.getElem?_eq_getElem (hinv hav)]; simp)
  · simp [hav, h0] at hfalse ⊢
    by_cases hd : t1.typ = .ini_DOCUMENT_END_TOKEN
    · simp [hd] at hfalse
    · by_cases hk : first = true ∧ t1.typ = .ini_SECTION_KEY_TOKEN
      · simp [hd, hk] at hfalse
      · by_cases hs1 : t1.typ = .ini_SECTION_START_TOKEN
        · simp [hd, hk, hs1] at hfalse ⊢
          rcases h1 : p.tokens[p.tokens_head + 1]? with _ | t2
          · simp [h1] at hfalse ⊢
          · simp [h1] at hfalse ⊢
            by_cases hsc : t2.typ = .ini_SCALAR_TOKEN
            · simp [hsc] at hfalse ⊢
              rcases h2 : p.tokens[p.tokens_head + 2]? with _ | t3
              · simp [h2] at hfalse ⊢
              · simp [h2] at hfalse ⊢
                by_cases hin : t3.typ = .ini_SECTION_INHERIT_TOKEN
                · simp [hin] at hfalse ⊢
                  rcases h3 : p.tokens[p.tokens_head + 3]? with _ | t4
                  · simp [h3] at hfalse ⊢
                  · simp [h3] at hfalse ⊢
                    by_cases hs4 : t4.typ = .ini_SCALAR_TOKEN
                    · simp [hs4] at hfalse ⊢
                      rcases h4 : p.tokens[p.tokens_head + 4]? with _ | t5
                      · simp [h4] at hfalse ⊢
                      · simp [h4] at hfalse ⊢
                        by_cases he5 : t5.typ = .ini_SECTION_END_TOKEN
                        · simp [he5] at hfalse
                        · simp [he5] at hfalse ⊢
                    · simp [hs4] at hfalse ⊢
                · by_cases he3 : t3.typ = .ini_SECTION_END_TOKEN
                  · simp [hin, he3] at hfalse
                  · simp [hin, he3] at hfalse ⊢
            · simp [hsc] at hfalse ⊢
        · by_cases hs2 : t1.typ = .ini_SECTION_END_TOKEN
          · simp [hd, hk, hs1, hs2] at hfalse ⊢
            rcases h1 : p.tokens[p.tokens_head + 1]? with _ | t2
            · simp [h1] at hfalse ⊢
            · simp [h1] at hfalse ⊢
              by_cases hk2 : t2.typ = .ini_SECTION_KEY_TOKEN
              · simp [hk2] at hfalse ⊢
                rcases h2 : p.tokens[p.tokens_head + 2]? with _ | t3
                · simp [h2] at hfalse ⊢
                · simp [h2] at hfalse
              · simp [hk2] at hfalse ⊢
          · simp [hd, hk, hs1, hs2] at hfalse ⊢

/-- A failing dispatcher step (on a handled state) leaves a recorded
error behind. -/
theorem sm_false (f : List Nat → ini_tag_t) (p : ini_parser_t)
    (hh : ini_parser_state_handled p.state)
    (hinv : ini_parser_token_inv p) :
    (ini_parser_state_machine f p).1 = false →
    (ini_parser_state_machine f p).2.2.error ≠ .ini_NO_ERROR := by
  unfold ini_parser_state_machine
  rcases hh with h | h | h | h | h | h <;> rw [h]
  · exact ds_false p hinv
  · exact se_false f p true hinv
  · exact se_false f p false hinv
  · exact sk_false f p true hinv
  · exact sk_false f p false hinv
  · exact sv_false f p hinv

/-! ## Claims -/

/-- Claim C1: once a parser instance is latched (the document-end flag is
set, an error is recorded, or the state machine sits in the terminal
Document-End state), every subsequent `ini_parser_parse` call returns a
success status with the erased all-zero sentinel event, indefinitely, and
leaves the instance unchanged.  Conversely a failure status is returned
only by the single call during which the error is first detected: a
failing call starts from an unlatched instance with no recorded error,
ends with an error recorded (on the dispatchable states, under the queue
invariant), and every later call again returns success with the sentinel
event. -/
theorem claim_C1 (f : List Nat → ini_tag_t) (p : ini_parser_t) :
    ((p.document_end_produced = true ∨ p.error ≠ .ini_NO_ERROR ∨
        p.state = .ini_PARSE_DOCUMENT_END_STATE) →
      ∀ n, ini_parser_parse_iter f p n = p ∧
        ini_parser_parse f (ini_parser_parse_iter f p n) =
          (true, ini_empty_event, p)) ∧
    ((ini_parser_parse f p).1 = false →
      (p.document_end_produced = false ∧ p.error = .ini_NO_ERROR ∧
        p.state ≠ .ini_PARSE_DOCUMENT_END_STATE) ∧
      (ini_parser_state_handled p.state → ini_parser_token_inv p →
        (ini_parser_parse f p).2.2.error ≠ .ini_NO_ERROR ∧
        ∀ n, ini_parser_parse f
            (ini_parser_parse_iter f (ini_parser_parse f p).2.2 n) =
          (true, ini_empty_event, (ini_parser_parse f p).2.2))) := by
  constructor
  · intro h n
    have hfix := ini_parser_parse_iter_latched f p h n
    exact ⟨hfix, by rw [hfix, ini_parser_parse_latched f p h]⟩
  · intro hfalse
    have hnl : ¬(p.document_end_produced = true ∨ p.error ≠ .ini_NO_ERROR ∨
        p.state = .ini_PARSE_DOCUMENT_END_STATE) := by
      intro h
      rw [ini_parser_parse_latched f p h] at hfalse
      simp at hfalse
    push_neg at hnl
    obtain ⟨ha, hb, hc⟩ := hnl
    have hsm : ini_parser_parse f p = ini_parser_state_machine f p := by
      unfold ini_parser_parse
      rw [if_neg]
      intro h
      rcases h with h | h | h
      · exact absurd h (by simp [ha])
      · exact h hb
      · exact hc h
    refine ⟨⟨by simp [ha], hb, hc⟩, ?_⟩
    intro hh hinv
    have herr : (ini_parser_parse f p).2.2.error ≠ .ini_NO_ERROR := by
      rw [hsm] at hfalse ⊢
      exact sm_false f p hh hinv hfalse
    refine ⟨herr, ?_⟩
    intro n
    have hlatch2 : (ini_parser_parse f p).2.2.document_end_produced = true ∨
        (ini_parser_parse f p).2.2.error ≠ .ini_NO_ERROR ∨
        (ini_parser_parse f p).2.2.state =
          .ini_PARSE_DOCUMENT_END_STATE := Or.inr (Or.inl herr)
    rw [ini_parser_parse_iter_latched f _ hlatch2 n,
      ini_parser_parse_latched f _ hlatch2]

/-- Witness for C1: a latched instance stays fixed over three calls, and
an instance whose first token is a bare scalar fails exactly once, keeps
the recorded error, and afterwards returns the sentinel success. -/
theorem claim_C1_witness :
    claim_C1_input_latched.document_end_produced = true ∧
    ini_parser_parse_iter ini_str_classifier claim_C1_input_latched 3 =
      claim_C1_input_latched ∧
    (ini_parser_parse ini_str_classifier claim_C1_input_failing).1 = false ∧
    (ini_parser_parse ini_str_classifier claim_C1_input_failing
      ).2.2.error ≠ .ini_NO_ERROR ∧
    ini_parser_parse ini_str_classifier
        (ini_parser_parse_iter ini_str_classifier
          (ini_parser_parse ini_str_classifier claim_C1_input_failing).2.2
          2) =
      (true, ini_empty_event,
        (ini_parser_parse ini_str_classifier claim_C1_input_failing).2.2) := by
  refine ⟨by decide, ?_, by decide, ?_, ?_⟩
  · exact ((claim_C1 ini_str_classifier claim_C1_input_latched).1
      (Or.inl (by decide)) 3).1
  · exact (((claim_C1 ini_str_classifier claim_C1_input_failing).2
      (by decide)).2 (Or.inl (by decide))
      (by intro h; exact absurd h (by decide))).1
  · exact (((claim_C1 ini_str_classifier claim_C1_input_failing).2
      (by decide)).2 (Or.inl (by decide))
      (by intro h; exact absurd h (by decide))).2 2

/-- Claim C2 (amended): in the Section-First-Entry or Section-Entry state
with the document-end token as lookahead, the step emits a Document-End
event carrying the token's start and end marks and pops the return-point
state, leaving the parser in the terminal Document-End state — but it
does NOT consume the document-end token, so the head, the parsed counter
and the `document_end_produced` flag are left unchanged (the flag stays
false; the driver latches through the terminal state instead). -/
theorem claim_C2 (f : List Nat → ini_tag_t) (p : ini_parser_t)
    (t : ini_token_t) (first : Bool)
    (h : p.tokens[p.tokens_head]? = some t)
    (ht : t.typ = .ini_DOCUMENT_END_TOKEN)
    (hs : p.states.getLast? = some .ini_PARSE_DOCUMENT_END_STATE) :
    ini_parser_parse_section_entry f p first =
      (true,
        { ini_empty_event with
          typ := .ini_DOCUMENT_END_EVENT
          start_mark := t.start_mark
          end_mark := t.end_mark },
        { p with state := .ini_PARSE_DOCUMENT_END_STATE
                 states := p.states.dropLast
                 token_available := true }) := by
  unfold ini_parser_parse_section_entry peek_token ini_parser_fetch_more_tokens
  rcases hav : p.token_available with _ | _ <;>
    simp [hav, h, ht, ini_empty_event, List.getLastD_eq_getLast?, hs]

/-- Counterexample for C2 as stated: on a concrete parser in the
Section-Entry state looking at the document-end token, the step succeeds
with the Document-End event but consumes nothing (head and parsed counter
unchanged) and leaves `document_end_produced` false, contradicting
"consumes the document-end token and the consume sets
document_end_produced to true". -/
theorem claim_C2_cex :
    (ini_parser_parse ini_str_classifier claim_C2_input).1 = true ∧
    (ini_parser_parse ini_str_classifier claim_C2_input).2.1.typ =
      .ini_DOCUMENT_END_EVENT ∧
    (ini_parser_parse ini_str_classifier claim_C2_input).2.2.tokens_head =
      claim_C2_input.tokens_head ∧
    (ini_parser_parse ini_str_classifier claim_C2_input).2.2.tokens_parsed =
      claim_C2_input.tokens_parsed ∧
    (ini_parser_parse ini_str_classifier claim_C2_input
      ).2.2.document_end_produced = false := by decide

/-- Witness for C2 at a concrete input. -/
theorem claim_C2_witness :
    claim_C2_input.tokens[claim_C2_input.tokens_head]? =
      some (ini_mk_token .ini_DOCUMENT_END_TOKEN 4 4 []) ∧
    claim_C2_input.states.getLast? = some .ini_PARSE_DOCUMENT_END_STATE ∧
    ini_parser_parse_section_entry ini_str_classifier claim_C2_input false =
      (true,
        { ini_empty_event with
          typ := .ini_DOCUMENT_END_EVENT
          start_mark := { index := 4, line := 0, column := 4 }
          end_mark := { index := 4, line := 0, column := 4 } },
        { claim_C2_input with
          state := .ini_PARSE_DOCUMENT_END_STATE
          states := []
          token_available := true }) := by
  refine ⟨by decide, by decide, ?_⟩
  rw [claim_C2 ini_str_classifier claim_C2_input
    (ini_mk_token .ini_DOCUMENT_END_TOKEN 4 4 []) false
    (by decide) (by decide) (by decide)]
  decide

/-- Claim C3: in the Section-First-Entry state (first = true) with a
section-key token as lookahead, the step consumes nothing and emits a
synthetic Section-Entry event whose value is the literal bytes of
"default", whose tag is the section tag, and whose range is zero-width at
the key token's start mark, transitioning to the Section-First-Key state
with the key token still at the head of the queue. -/
theorem claim_C3 (f : List Nat → ini_tag_t) (p : ini_parser_t)
    (t : ini_token_t)
    (h : p.tokens[p.tokens_head]? = some t)
    (ht : t.typ = .ini_SECTION_KEY_TOKEN) :
    ini_parser_parse_section_entry f p true =
      (true,
        { ini_empty_event with
          typ := .ini_SECTION_ENTRY_EVENT
          start_mark := t.start_mark
          end_mark := t.start_mark
          value := [100, 101, 102, 97, 117, 108, 116]
          tag := .ini_SECTION_TAG },
        { p with state := .ini_PARSE_SECTION_FIRST_KEY_STATE,
                 token_available := true }) := by
  unfold ini_parser_parse_section_entry peek_token ini_parser_fetch_more_tokens
  rcases hav : p.token_available with _ | _ <;>
    simp [hav, h, ht, ini_empty_event]

/-- Witness for C3 at a concrete input. -/
theorem claim_C3_witness :
    claim_C3_input.tokens[claim_C3_input.tokens_head]? =
      some (ini_mk_token .ini_SECTION_KEY_TOKEN 2 3 [107]) ∧
    (ini_mk_token .ini_SECTION_KEY_TOKEN 2 3 [107]).typ =
      .ini_SECTION_KEY_TOKEN ∧
    ini_parser_parse_section_entry ini_str_classifier claim_C3_input true =
      (true,
        { ini_empty_event with
          typ := .ini_SECTION_ENTRY_EVENT
          start_mark := { index := 2, line := 0, column := 2 }
          end_mark := { index := 2, line := 0, column := 2 }
          value := [100, 101, 102, 97, 117, 108, 116]
          tag := .ini_SECTION_TAG },
        { claim_C3_input with
          state := .ini_PARSE_SECTION_FIRST_KEY_STATE
          token_available := true }) := by
  refine ⟨by decide, by decide, ?_⟩
  rw [claim_C3 ini_str_classifier claim_C3_input
    (ini_mk_token .ini_SECTION_KEY_TOKEN 2 3 [107]) (by decide) (by decide)]
  decide

/-- Claim C4: a header token sequence section-start, scalar(child),
inherit-marker, scalar(parent), section-end makes the step emit one
Section-Entry event tagged with the section-inherit tag whose value is
the child bytes followed by the marker bytes followed by the parent
bytes; a header without the inherit clause (section-start, scalar,
section-end) yields the plain section tag with value equal to the name
bytes alone. -/
theorem claim_C4 (f : List Nat → ini_tag_t) :
    (∀ (p : ini_parser_t) (first : Bool) (t1 t2 t3 t4 t5 : ini_token_t),
      p.tokens[p.tokens_head]? = some t1 →
      p.tokens[p.tokens_head + 1]? = some t2 →
      p.tokens[p.tokens_head + 2]? = some t3 →
      p.tokens[p.tokens_head + 3]? = some t4 →
      p.tokens[p.tokens_head + 4]? = some t5 →
      t1.typ = .ini_SECTION_START_TOKEN →
      t2.typ = .ini_SCALAR_TOKEN →
      t3.typ = .ini_SECTION_INHERIT_TOKEN →
      t4.typ = .ini_SCALAR_TOKEN →
      t5.typ = .ini_SECTION_END_TOKEN →
      (ini_parser_parse_section_entry f p first).1 = true ∧
      (ini_parser_parse_section_entry f p first).2.1.typ =
        .ini_SECTION_ENTRY_EVENT ∧
      (ini_parser_parse_section_entry f p first).2.1.value =
        t2.value ++ t3.value ++ t4.value ∧
      (ini_parser_parse_section_entry f p first).2.1.tag =
        .ini_SECTION_INHERIT_TAG) ∧
    (∀ (p : ini_parser_t) (first : Bool) (t1 t2 t3 : ini_token_t),
      p.tokens[p.tokens_head]? = some t1 →
      p.tokens[p.tokens_head + 1]? = some t2 →
      p.tokens[p.tokens_head + 2]? = some t3 →
      t1.typ = .ini_SECTION_START_TOKEN →
      t2.typ = .ini_SCALAR_TOKEN →
      t3.typ = .ini_SECTION_END_TOKEN →
      (ini_parser_parse_section_entry f p first).1 = true ∧
      (ini_parser_parse_section_entry f p first).2.1.typ =
        .ini_SECTION_ENTRY_EVENT ∧
      (ini_parser_parse_section_entry f p first).2.1.value = t2.value ∧
      (ini_parser_parse_section_entry f p first).2.1.tag =
        .ini_SECTION_TAG) := by
  constructor
  · intro p first t1 t2 t3 t4 t5 h1 h2 h3 h4 h5 ht1 ht2 ht3 ht4 ht5
    unfold ini_parser_parse_section_entry peek_token
      ini_parser_fetch_more_tokens skip_token
    rcases hav : p.token_available with _ | _ <;>
      simp [hav, h1, h2, h3, h4, h5, ht1, ht2, ht3, ht4, ht5]
  · intro p first t1 t2 t3 h1 h2 h3 ht1 ht2 ht3
    unfold ini_parser_parse_section_entry peek_token
      ini_parser_fetch_more_tokens skip_token
    rcases hav : p.token_available with _ | _ <;>
      simp [hav, h1, h2, h3, ht1, ht2, ht3]

/-- Witness for C4 on the header `[child:parent]`: the event value is the
bytes of `child` + `:` + `parent` and the tag is the inherit tag. -/
theorem claim_C4_witness :
    claim_C4_input.tokens[claim_C4_input.tokens_head]? =
      some (ini_mk_token .ini_SECTION_START_TOKEN 0 1 []) ∧
    (ini_parser_parse_section_entry ini_str_classifier claim_C4_input
      true).2.1.value =
      [99, 104, 105, 108, 100, 58, 112, 97, 114, 101, 110, 116] ∧
    (ini_parser_parse_section_entry ini_str_classifier claim_C4_input
      true).2.1.tag = .ini_SECTION_INHERIT_TAG := by
  refine ⟨by decide, ?_, ?_⟩
  · have h := (claim_C4 ini_str_classifier).1 claim_C4_input true
      (ini_mk_token .ini_SECTION_START_TOKEN 0 1 [])
      (ini_mk_token .ini_SCALAR_TOKEN 1 6 [99, 104, 105, 108, 100])
      (ini_mk_token .ini_SECTION_INHERIT_TOKEN 6 7 [58])
      (ini_mk_token .ini_SCALAR_TOKEN 7 13 [112, 97, 114, 101, 110, 116])
      (ini_mk_token .ini_SECTION_END_TOKEN 13 14 [])
      (by decide) (by decide) (by decide) (by decide) (by decide)
      (by decide) (by decide) (by decide) (by decide) (by decide)
    rw [h.2.2.1]
    decide
  · have h := (claim_C4 ini_str_classifier).1 claim_C4_input true
      (ini_mk_token .ini_SECTION_START_TOKEN 0 1 [])
      (ini_mk_token .ini_SCALAR_TOKEN 1 6 [99, 104, 105, 108, 100])
      (ini_mk_token .ini_SECTION_INHERIT_TOKEN 6 7 [58])
      (ini_mk_token .ini_SCALAR_TOKEN 7 13 [112, 97, 114, 101, 110, 116])
      (ini_mk_token .ini_SECTION_END_TOKEN 13 14 [])
      (by decide) (by decide) (by decide) (by decide) (by decide)
      (by decide) (by decide) (by decide) (by decide) (by decide)
    exact h.2.2.2

/-- Claim C5 (amended): in the Section-Key state (non-first), a lookahead
that is not a section-key token is not consumed and a boundary
Section-Entry event is emitted, transitioning to the Section-Entry state
— but the event's range is the token's own start..end range (copied from
the lookahead token), not a zero-width range. -/
theorem claim_C5 (f : List Nat → ini_tag_t) (p : ini_parser_t)
    (t : ini_token_t)
    (h : p.tokens[p.tokens_head]? = some t)
    (ht : t.typ ≠ .ini_SECTION_KEY_TOKEN) :
    ini_parser_parse_section_key f p false =
      (true,
        { ini_empty_event with
          typ := .ini_SECTION_ENTRY_EVENT
          start_mark := t.start_mark
          end_mark := t.end_mark },
        { p with state := .ini_PARSE_SECTION_ENTRY_STATE,
                 token_available := true }) :=
  ini_parser_section_key_boundary f p t h ht

/-- Counterexample for C5 as stated: a concrete parser in the Section-Key
state whose lookahead token spans bytes 5..6 produces the boundary
Section-Entry event with distinct start and end marks, so the range is
not zero-width. -/
theorem claim_C5_cex :
    (ini_parser_parse ini_str_classifier claim_C5_input).1 = true ∧
    (ini_parser_parse ini_str_classifier claim_C5_input).2.1.typ =
      .ini_SECTION_ENTRY_EVENT ∧
    (ini_parser_parse ini_str_classifier claim_C5_input).2.1.start_mark ≠
      (ini_parser_parse ini_str_classifier claim_C5_input).2.1.end_mark ∧
    (ini_parser_parse ini_str_classifier claim_C5_input).2.2.tokens_head =
      claim_C5_input.tokens_head := by decide

/-- Witness for C5 at a concrete input. -/
theorem claim_C5_witness :
    claim_C5_input.tokens[claim_C5_input.tokens_head]? =
      some (ini_mk_token .ini_SECTION_START_TOKEN 5 6 []) ∧
    (ini_mk_token .ini_SECTION_START_TOKEN 5 6 []).typ ≠
      .ini_SECTION_KEY_TOKEN ∧
    ini_parser_parse_section_key ini_str_classifier claim_C5_input false =
      (true,
        { ini_empty_event with
          typ := .ini_SECTION_ENTRY_EVENT
          start_mark := { index := 5, line := 0, column := 5 }
          end_mark := { index := 6, line := 0, column := 6 } },
        { claim_C5_input with
          state := .ini_PARSE_SECTION_ENTRY_STATE
          token_available := true }) := by
  refine ⟨by decide, by decide, ?_⟩
  rw [claim_C5 ini_str_classifier claim_C5_input
    (ini_mk_token .ini_SECTION_START_TOKEN 5 6 []) (by decide) (by decide)]
  decide

/-- Claim C6 (amended): in the Section-Entry state with a section-end
token as lookahead, the step consumes it and expects the following token
to be a section-key token, recording the Parser error "did not find
expected <section-key>" at that token's start mark otherwise; on success
it consumes the section-key token AND the token after it (without
checking that token's kind), and emits a Scalar event whose value, end
mark and classified tag come from that following token — not from the
section-key token itself — transitioning to the Section-Value state. -/
theorem claim_C6 (f : List Nat → ini_tag_t) :
    (∀ (p : ini_parser_t) (first : Bool) (t1 t2 t3 : ini_token_t),
      p.tokens[p.tokens_head]? = some t1 →
      p.tokens[p.tokens_head + 1]? = some t2 →
      p.tokens[p.tokens_head + 2]? = some t3 →
      t1.typ = .ini_SECTION_END_TOKEN →
      t2.typ = .ini_SECTION_KEY_TOKEN →
      ini_parser_parse_section_entry f p first =
        (true,
          { typ := .ini_SCALAR_EVENT
            start_mark := t2.start_mark
            end_mark := t3.end_mark
            value := t3.value
            tag := f t3.value
            implicit := false
            style := 0 },
          { p with
            tokens_head := p.tokens_head + 3
            tokens_parsed := p.tokens_parsed + 3
            token_available := false
            document_end_produced :=
              decide (t3.typ = .ini_DOCUMENT_END_TOKEN)
            state := .ini_PARSE_SECTION_VALUE_STATE })) ∧
    (∀ (p : ini_parser_t) (first : Bool) (t1 t2 : ini_token_t),
      p.tokens[p.tokens_head]? = some t1 →
      p.tokens[p.tokens_head + 1]? = some t2 →
      t1.typ = .ini_SECTION_END_TOKEN →
      t2.typ ≠ .ini_SECTION_KEY_TOKEN →
      (ini_parser_parse_section_entry f p first).1 = false ∧
      (ini_parser_parse_section_entry f p first).2.2.error =
        .ini_PARSER_ERROR ∧
      (ini_parser_parse_section_entry f p first).2.2.problem =
        "did not find expected <section-key>" ∧
      (ini_parser_parse_section_entry f p first).2.2.problem_mark =
        t2.start_mark) := by
  constructor
  · intro p first t1 t2 t3 h1 h2 h3 ht1 ht2
    unfold ini_parser_parse_section_entry peek_token
      ini_parser_fetch_more_tokens skip_token
    rcases hav : p.token_available with _ | _ <;>
      simp [hav, h1, h2, h3, ht1, ht2]
  · intro p first t1 t2 h1 h2 ht1 ht2
    unfold ini_parser_parse_section_entry peek_token
      ini_parser_fetch_more_tokens skip_token ini_parser_set_parser_error
    rcases hav : p.token_available with _ | _ <;>
      simp [hav, h1, h2, ht1, ht2]

/-- Counterexample for C6 as stated: on a concrete parser the emitted
Scalar event's value is the bytes of the token after the section-key
token, which differ from the section-key token's own bytes, contradicting
"whose value is that token's bytes". -/
theorem claim_C6_cex :
    (ini_parser_parse ini_str_classifier claim_C6_input).1 = true ∧
    (ini_parser_parse ini_str_classifier claim_C6_input).2.1.typ =
      .ini_SCALAR_EVENT ∧
    (ini_parser_parse ini_str_classifier claim_C6_input).2.1.value =
      [118, 57] ∧
    (ini_parser_parse ini_str_classifier claim_C6_input).2.1.value ≠
      (ini_mk_token .ini_SECTION_KEY_TOKEN 2 3 [107, 49]).value := by decide

/-- Witness for C6 at a concrete input. -/
theorem claim_C6_witness :
    claim_C6_input.tokens[claim_C6_input.tokens_head]? =
      some (ini_mk_token .ini_SECTION_END_TOKEN 0 1 []) ∧
    ini_parser_parse_section_entry ini_str_classifier claim_C6_input false =
      (true,
        { typ := .ini_SCALAR_EVENT
          start_mark := { index := 2, line := 0, column := 2 }
          end_mark := { index := 5, line := 0, column := 5 }
          value := [118, 57]
          tag := .ini_STR_TAG
          implicit := false
          style := 0 },
        { claim_C6_input with
          tokens_head := 3
          tokens_parsed := 3
          token_available := false
          document_end_produced := false
          state := .ini_PARSE_SECTION_VALUE_STATE }) := by
  refine ⟨by decide, ?_⟩
  rw [(claim_C6 ini_str_classifier).1 claim_C6_input false
    (ini_mk_token .ini_SECTION_END_TOKEN 0 1 [])
    (ini_mk_token .ini_SECTION_KEY_TOKEN 2 3 [107, 49])
    (ini_mk_token .ini_SCALAR_TOKEN 4 5 [118, 57])
    (by decide) (by decide) (by decide) (by decide) (by decide)]
  decide

/-- Claim C7: in the Section-Value state, a value-marker lookahead whose
following token is not a scalar makes the step consume only the marker
and emit a Scalar event with empty value, the null tag, plain style and a
zero-width range at the non-scalar token's start mark, transitioning to
the Section-Key state with the non-scalar token still unconsumed at the
head of the queue. -/
theorem claim_C7 (f : List Nat → ini_tag_t) (p : ini_parser_t)
    (t1 t2 : ini_token_t)
    (h1 : p.tokens[p.tokens_head]? = some t1)
    (h2 : p.tokens[p.tokens_head + 1]? = some t2)
    (ht1 : t1.typ = .ini_SECTION_VALUE_TOKEN)
    (ht2 : t2.typ ≠ .ini_SCALAR_TOKEN) :
    ini_parser_parse_section_value f p =
      (true,
        { typ := .ini_SCALAR_EVENT
          start_mark := t2.start_mark
          end_mark := t2.start_mark
          value := []
          tag := .ini_NULL_TAG
          implicit := false
          style := ini_PLAIN_SCALAR_STYLE },
        { p with tokens_head := p.tokens_head + 1
                 tokens_parsed := p.tokens_parsed + 1
                 token_available := true
                 document_end_produced := false
                 state := .ini_PARSE_SECTION_KEY_STATE }) := by
  unfold ini_parser_parse_section_value peek_token ini_parser_fetch_more_tokens
    skip_token ini_parser_process_empty_scalar
  rcases hav : p.token_available with _ | _ <;>
    simp [hav, h1, h2, ht1, ht2, ini_empty_event]

/-- Witness for C7 at a concrete input. -/
theorem claim_C7_witness :
    claim_C7_input.tokens[claim_C7_input.tokens_head]? =
      some (ini_mk_token .ini_SECTION_VALUE_TOKEN 3 4 [61]) ∧
    claim_C7_input.tokens[claim_C7_input.tokens_head + 1]? =
      some (ini_mk_token .ini_SECTION_KEY_TOKEN 5 5 []) ∧
    ini_parser_parse_section_value ini_str_classifier claim_C7_input =
      (true,
        { typ := .ini_SCALAR_EVENT
          start_mark := { index := 5, line := 0, column := 5 }
          end_mark := { index := 5, line := 0, column := 5 }
          value := []
          tag := .ini_NULL_TAG
          implicit := false
          style := ini_PLAIN_SCALAR_STYLE },
        { claim_C7_input with
          tokens_head := 1
          tokens_parsed := 1
          token_available := true
          document_end_produced := false
          state := .ini_PARSE_SECTION_KEY_STATE }) := by
  refine ⟨by decide, by decide, ?_⟩
  rw [claim_C7 ini_str_classifier claim_C7_input
    (ini_mk_token .ini_SECTION_VALUE_TOKEN 3 4 [61])
    (ini_mk_token .ini_SECTION_KEY_TOKEN 5 5 [])
    (by decide) (by decide) (by decide) (by decide)]
  decide

/-- Claim C8: for the token sequence document-start, section-start,
scalar, then a token that is neither the inherit marker nor the
section-end token (the unterminated header `[section`), the first driver
call succeeds and the second one — the call that reaches the offending
token — returns a failure status and records a Parser error whose message
is exactly "did not find expected <section-end>" and whose mark is the
offending token's start mark. -/
theorem claim_C8 (f : List Nat → ini_tag_t) (t1 t2 t3 t4 : ini_token_t)
    (rest : List ini_token_t)
    (ht1 : t1.typ = .ini_DOCUMENT_START_TOKEN)
    (ht2 : t2.typ = .ini_SECTION_START_TOKEN)
    (ht3 : t3.typ = .ini_SCALAR_TOKEN)
    (ht4a : t4.typ ≠ .ini_SECTION_INHERIT_TOKEN)
    (ht4b : t4.typ ≠ .ini_SECTION_END_TOKEN) :
    (ini_parser_parse f (ini_parser_initial ([t1, t2, t3, t4] ++ rest))).1 =
      true ∧
    (ini_parser_parse f
      (ini_parser_parse f
        (ini_parser_initial ([t1, t2, t3, t4] ++ rest))).2.2).1 = false ∧
    (ini_parser_parse f
      (ini_parser_parse f
        (ini_parser_initial ([t1, t2, t3, t4] ++ rest))).2.2).2.2.error =
      .ini_PARSER_ERROR ∧
    (ini_parser_parse f
      (ini_parser_parse f
        (ini_parser_initial ([t1, t2, t3, t4] ++ rest))).2.2).2.2.problem =
      "did not find expected <section-end>" ∧
    (ini_parser_parse f
      (ini_parser_parse f
        (ini_parser_initial ([t1, t2, t3, t4] ++ rest))).2.2
      ).2.2.problem_mark = t4.start_mark := by
  unfold ini_parser_parse ini_parser_state_machine ini_parser_initial
    ini_parser_parse_document_start ini_parser_parse_section_entry
    peek_token ini_parser_fetch_more_tokens skip_token
    ini_parser_set_parser_error
  simp [ht1, ht2, ht3, ht4a, ht4b]

/-- Witness for C8 on the token sequence of `[section` terminated by the
document-end token. -/
theorem claim_C8_witness :
    (ini_mk_token .ini_DOCUMENT_START_TOKEN 0 0 []).typ =
      .ini_DOCUMENT_START_TOKEN ∧
    (ini_mk_token .ini_SECTION_START_TOKEN 0 1 []).typ =
      .ini_SECTION_START_TOKEN ∧
    (ini_mk_token .ini_SCALAR_TOKEN 1 8 [115, 101, 99, 116, 105, 111, 110]
      ).typ = .ini_SCALAR_TOKEN ∧
    (ini_mk_token .ini_DOCUMENT_END_TOKEN 8 8 []).typ ≠
      .ini_SECTION_INHERIT_TOKEN ∧
    (ini_mk_token .ini_DOCUMENT_END_TOKEN 8 8 []).typ ≠
      .ini_SECTION_END_TOKEN ∧
    (ini_parser_parse ini_str_classifier
      (ini_parser_parse ini_str_classifier
        (ini_parser_initial
          ([ini_mk_token .ini_DOCUMENT_START_TOKEN 0 0 [],
            ini_mk_token .ini_SECTION_START_TOKEN 0 1 [],
            ini_mk_token .ini_SCALAR_TOKEN 1 8
              [115, 101, 99, 116, 105, 111, 110],
            ini_mk_token .ini_DOCUMENT_END_TOKEN 8 8 []] ++ []))).2.2
      ).2.2.problem = "did not find expected <section-end>" ∧
    (ini_parser_parse ini_str_classifier
      (ini_parser_parse ini_str_classifier
        (ini_parser_initial
          ([ini_mk_token .ini_DOCUMENT_START_TOKEN 0 0 [],
            ini_mk_token .ini_SECTION_START_TOKEN 0 1 [],
            ini_mk_token .ini_SCALAR_TOKEN 1 8
              [115, 101, 99, 116, 105, 111, 110],
            ini_mk_token .ini_DOCUMENT_END_TOKEN 8 8 []] ++ []))).2.2
      ).2.2.problem_mark = { index := 8, line := 0, column := 8 } := by
  refine ⟨by decide, by decide, by decide, by decide, by decide, ?_, ?_⟩
  · exact (claim_C8 ini_str_classifier
      (ini_mk_token .ini_DOCUMENT_START_TOKEN 0 0 [])
      (ini_mk_token .ini_SECTION_START_TOKEN 0 1 [])
      (ini_mk_token .ini_SCALAR_TOKEN 1 8 [115, 101, 99, 116, 105, 111, 110])
      (ini_mk_token .ini_DOCUMENT_END_TOKEN 8 8 []) []
      (by decide) (by decide) (by decide) (by decide) (by decide)).2.2.2.1
  · have h := (claim_C8 ini_str_classifier
      (ini_mk_token .ini_DOCUMENT_START_TOKEN 0 0 [])
      (ini_mk_token .ini_SECTION_START_TOKEN 0 1 [])
      (ini_mk_token .ini_SCALAR_TOKEN 1 8 [115, 101, 99, 116, 105, 111, 110])
      (ini_mk_token .ini_DOCUMENT_END_TOKEN 8 8 []) []
      (by decide) (by decide) (by decide) (by decide) (by decide)).2.2.2.2
    rw [h]
    decide

/-- Claim C9: the document-end-produced flag is monotone over the
reachable operations of a parser instance: it starts false on a fresh
instance, a peek never changes it, and once an iterated sequence of
driver calls has made it true, every longer sequence of driver calls
keeps it true. -/
theorem claim_C9 (f : List Nat → ini_tag_t) :
    (∀ ts, (ini_parser_initial ts).document_end_produced = false) ∧
    (∀ p : ini_parser_t,
      ((peek_token p).2).document_end_produced = p.document_end_produced) ∧
    (∀ (p : ini_parser_t) (n m : Nat), n ≤ m →
      (ini_parser_parse_iter f p n).document_end_produced = true →
      (ini_parser_parse_iter f p m).document_end_produced = true) := by
  refine ⟨fun ts => rfl, peek_token_document_end_produced, ?_⟩
  intro p n m hnm h
  induction m with
  | zero =>
    have : n = 0 := Nat.le_zero.mp hnm
    simpa [this] using h
  | succ m ih =>
    rcases Nat.lt_or_ge n (m + 1) with hlt | hge
    · have hm := ih (Nat.lt_succ_iff.mp hlt)
      unfold ini_parser_parse_iter
      rw [ini_parser_parse_latched f _ (Or.inl hm)]
      exact hm
    · have : n = m + 1 := Nat.le_antisymm hnm hge
      simpa [this] using h

/-- Witness for C9: a parser whose flag is already true keeps it true two
driver calls later. -/
theorem claim_C9_witness :
    (0 : Nat) ≤ 2 ∧
    (ini_parser_parse_iter ini_str_classifier claim_C1_input_latched 0
      ).document_end_produced = true ∧
    (ini_parser_parse_iter ini_str_classifier claim_C1_input_latched 2
      ).document_end_produced = true :=
  ⟨by decide, by decide,
    (claim_C9 ini_str_classifier).2.2 claim_C1_input_latched 0 2
      (by decide) (by decide)⟩

/-- Claim C10: the first distinction has no effect in the key states: the
section-key step is literally the same function for first = true and
first = false, and in particular a Section-First-Key parser whose
lookahead is not a section-key token (an empty section) produces the
non-consuming boundary Section-Entry event and moves to the Section-Entry
state rather than erroring. -/
theorem claim_C10 (f : List Nat → ini_tag_t) (p : ini_parser_t) :
    ini_parser_parse_section_key f p true =
      ini_parser_parse_section_key f p false ∧
    (∀ t, p.tokens[p.tokens_head]? = some t →
      t.typ ≠ .ini_SECTION_KEY_TOKEN →
      p.state = .ini_PARSE_SECTION_FIRST_KEY_STATE →
      ini_parser_state_machine f p =
        (true,
          { ini_empty_event with
            typ := .ini_SECTION_ENTRY_EVENT
            start_mark := t.start_mark
            end_mark := t.end_mark },
          { p with state := .ini_PARSE_SECTION_ENTRY_STATE,
                   token_available := true })) := by
  constructor
  · rfl
  · intro t h ht hst
    unfold ini_parser_state_machine
    rw [hst]
    exact ini_parser_section_key_boundary f p t h ht

/-- Witness for C10: an empty section followed by the document-end token
yields the boundary event. -/
theorem claim_C10_witness :
    claim_C10_input.tokens[claim_C10_input.tokens_head]? =
      some (ini_mk_token .ini_DOCUMENT_END_TOKEN 3 3 []) ∧
    (ini_mk_token .ini_DOCUMENT_END_TOKEN 3 3 []).typ ≠
      .ini_SECTION_KEY_TOKEN ∧
    ini_parser_state_machine ini_str_classifier claim_C10_input =
      (true,
        { ini_empty_event with
          typ := .ini_SECTION_ENTRY_EVENT
          start_mark := { index := 3, line := 0, column := 3 }
          end_mark := { index := 3, line := 0, column := 3 } },
        { claim_C10_input with
          state := .ini_PARSE_SECTION_ENTRY_STATE
          token_available := true }) := by
  refine ⟨by decide, by decide, ?_⟩
  rw [(claim_C10 ini_str_classifier claim_C10_input).2
    (ini_mk_token .ini_DOCUMENT_END_TOKEN 3 3 [])
    (by decide) (by decide) (by decide)]
  decide

end GoIni
